import Mathlib

/-!
Verification development for the 5301TrafficAI event pipeline.

Shallow embedding of the core components under `src/events/`:
* `events/bus.py`                                — `_Subscriber.deliver`, `AsyncBus.publish`
* `events/frame_discrete.py`                     — `run_sampler_equal_time`
* `events/Accident_detect/incident_aggregator.py`— `AccidentAggregator`
* `events/Accident_detect/accident_detector.py`  — result pairing of `run_accident_detector_multi`
* `events/camera_pipeline.py`                    — `SingleFileSession` start/stop supervisor

Python floats are modelled as exact rationals (ℚ); Python ints as ℤ/ℕ.
Dictionary accesses that can raise `KeyError` are modelled with `Option`
fields and explicit error propagation.
-/

namespace TrafficAI

/-! ## Fixed parameters (incident_aggregator.py) -/

def _ALPHA : ℚ := 1/4                 -- 0.25
def _EXIT_THR : ℚ := 2/5              -- 0.40
def _REQUIRED_HAPPENED_CONSEC : ℕ := 3
def _MIN_END_NEG_FRAMES : ℕ := 8
def _OCCLUSION_GRACE_SEC : ℚ := 1
def _MERGE_GAP_SEC : ℚ := 5

def _TOPIC_IN_BASE : String := "accident"
def _TOPIC_OPEN_BASE : String := "accidents.open"
def _TOPIC_CLOSE_BASE : String := "accidents.close"

/-- `topic_for(base, camera_id)` from bus.py: `f"{base}:{camera_id}" if camera_id else base`.
A falsy camera id (empty string, standing in for `None`/`""`) leaves the base unchanged. -/
def topic_for (base : String) (camera_id : String) : String :=
  if camera_id ≠ "" then base ++ ":" ++ camera_id else base

/-! ## Data model (bus.py dataclasses) -/

/-- `Frame` dataclass from bus.py; the numpy pixel buffer `rgb` is abstracted
to an integer handle (its contents are only ever forwarded, never inspected
by the components modelled here). -/
structure Frame where
  camera_id : String
  ts_unix : ℚ
  rgb : ℕ
  frame_idx : ℤ
  pts_in_video : ℚ
deriving DecidableEq, Repr

/-- `Detection` dataclass from bus.py. -/
structure Detection where
  type : String
  camera_id : String
  ts_unix : ℚ
  happened : Bool
  confidence : ℚ
  frame_idx : ℤ
  pts_in_video : ℚ
deriving DecidableEq, Repr

/-- `_Incident` dataclass from incident_aggregator.py. -/
structure Incident where
  id : String
  camera_id : String
  start_ts : ℚ
  end_ts : ℚ
  start_idx : ℤ
  end_idx : ℤ
  peak_conf : ℚ
  pos_frames : ℤ
deriving DecidableEq, Repr

/-- The close-event dict built by `AccidentAggregator._schedule_close`.
The first nine fields are exactly the keys that `_schedule_close` puts in the
dict.  The last three (`end_ts`, `start_ts`, `pos_frames`) are keys that
`_merge_reopen_into_pending` reads or writes dynamically: `Option` models
presence of the key, `none` meaning a lookup raises `KeyError`
(`pc.get("pos_frames", 0)` defaults instead of raising). -/
structure CloseEv where
  type : String
  camera_id : String
  frame_idx : ℤ
  pts_in_video : ℚ
  confidence : ℚ
  session_id : String
  incident_id : String
  duration_sec : ℚ
  peak_confidence : ℚ
  end_ts : Option ℚ := none
  start_ts : Option ℚ := none
  pos_frames : Option ℤ := none
deriving DecidableEq, Repr

/-- The open-event dict built by `AccidentAggregator._emit_open`. -/
structure OpenEv where
  type : String
  camera_id : String
  frame_idx : ℤ
  pts_in_video : ℚ
  confidence : ℚ
  session_id : String
  incident_id : String
  peak_confidence : ℚ
deriving DecidableEq, Repr

/-- The close-event dict built inline by `AccidentAggregator.flush` for a
still-open incident (it has a different key set from `_schedule_close`'s dict,
including `reason`). -/
structure FlushCloseEv where
  type : String
  session_id : String
  incident_id : String
  camera_id : String
  start_ts : ℚ
  end_ts : ℚ
  duration_sec : ℚ
  peak_confidence : ℚ
  pos_frames : ℤ
  reason : String
deriving DecidableEq, Repr

/-- An event published on the bus by the aggregator. -/
inductive BusEvent where
  | openEv (ev : OpenEv)
  | closeEv (ev : CloseEv)
  | flushCloseEv (ev : FlushCloseEv)
deriving DecidableEq, Repr

/-- A bus publication: (topic, payload). -/
abbrev Pub := String × BusEvent

def isCloseEvent (e : Pub) : Bool :=
  match e.2 with
  | .openEv _ => false
  | .closeEv _ => true
  | .flushCloseEv _ => true

def isOpenEvent (e : Pub) : Bool :=
  match e.2 with
  | .openEv _ => true
  | .closeEv _ => false
  | .flushCloseEv _ => false

def closeEvents (evs : List Pub) : List Pub := evs.filter isCloseEvent
def openEvents (evs : List Pub) : List Pub := evs.filter isOpenEvent

/-! ## Aggregator state (`AccidentAggregator.__init__`) -/

structure AggState where
  camera_id : String
  session_id : String
  counter : ℕ          -- self._counter
  ema : ℚ
  hap_streak : ℕ       -- self._hap_streak
  neg_streak : ℕ       -- self._neg_streak
  _open : Option Incident
  last_seen_pts : Option ℚ
  pending_close : Option CloseEv
  pending_close_time : Option ℚ
deriving DecidableEq, Repr

/-- `AccidentAggregator.__init__` state initialisation (session id passed in
explicitly; the `str(int(time.time()))` default is environment input). -/
def initAgg (camera_id session_id : String) : AggState :=
  { camera_id := camera_id, session_id := session_id, counter := 0, ema := 0,
    hap_streak := 0, neg_streak := 0, _open := none, last_seen_pts := none,
    pending_close := none, pending_close_time := none }

/-- Zero-pad a natural to six digits, as the `{:06d}` format in `_new_id`. -/
def pad6 (n : ℕ) : String :=
  let s := toString n
  String.mk (List.replicate (6 - s.length) '0') ++ s

/-- `AccidentAggregator._new_id`: bump the counter, produce
`f"{session_id}-{camera_id}-{counter:06d}"`. -/
def _new_id (s : AggState) : AggState × String :=
  let s1 := { s with counter := s.counter + 1 }
  (s1, s.session_id ++ "-" ++ s.camera_id ++ "-" ++ pad6 s1.counter)

/-- The dict built by `AccidentAggregator._schedule_close` (note: it contains
no `start_ts` / `end_ts` / `pos_frames` keys). -/
def mkScheduledCloseEv (s : AggState) (inc : Incident) : CloseEv :=
  { type := "accident_close", camera_id := s.camera_id, frame_idx := inc.end_idx,
    pts_in_video := inc.end_ts, confidence := inc.peak_conf,
    session_id := s.session_id, incident_id := inc.id,
    duration_sec := max 0 (inc.end_ts - inc.start_ts),
    peak_confidence := inc.peak_conf }

/-- The dict built by `AccidentAggregator._emit_open`. -/
def mkOpenEv (s : AggState) (inc : Incident) : OpenEv :=
  { type := "accident_open", camera_id := s.camera_id, frame_idx := inc.start_idx,
    pts_in_video := inc.start_ts, confidence := inc.peak_conf,
    session_id := s.session_id, incident_id := inc.id,
    peak_confidence := inc.peak_conf }

/-- `AccidentAggregator._flush_pending_close_if_expired`. -/
def _flush_pending_close_if_expired (s : AggState) (now_pts : ℚ) :
    AggState × List Pub :=
  match s.pending_close, s.pending_close_time with
  | some pc, some pct =>
    if _MERGE_GAP_SEC < now_pts - pct then
      ({ s with pending_close := none, pending_close_time := none },
       [(topic_for _TOPIC_CLOSE_BASE s.camera_id, BusEvent.closeEv pc)])
    else (s, [])
  | _, _ => (s, [])

/-- `AccidentAggregator._merge_reopen_into_pending`.
`pc["end_ts"] = new_end_ts` adds the key; the next line reads
`pc["start_ts"]`, a key no code path ever adds to a scheduled close dict, so
when it is absent the call raises `KeyError` — modelled as `.error` carrying
the dict as mutated so far (the `end_ts` assignment has already happened). -/
def _merge_reopen_into_pending (pc : CloseEv) (new_start_ts new_end_ts new_peak : ℚ)
    (new_pos_frames : ℤ) (new_end_idx : ℤ) : Except CloseEv CloseEv :=
  let _ := new_start_ts  -- parameter unused by the Python body
  let _ := new_end_idx   -- "end_idx is only for logging/debugging"
  let pc1 := { pc with end_ts := some new_end_ts }
  match pc1.start_ts with
  | none => Except.error pc1
  | some st =>
    let pc2 := { pc1 with duration_sec := max 0 (new_end_ts - st) }
    let pc3 := { pc2 with peak_confidence := max pc2.peak_confidence new_peak }
    Except.ok { pc3 with pos_frames := some (pc3.pos_frames.getD 0 + new_pos_frames) }

/-- `occlusion_ok` computation in `_process` (lines 169–175): false exactly
when a previous pts exists and the gap exceeds the occlusion grace. -/
def occlusionOk (prev_pts : Option ℚ) (ts : ℚ) : Bool :=
  match prev_pts with
  | some p => if _OCCLUSION_GRACE_SEC < ts - p then false else true
  | none => true

/-- The straight-line signal updates of `_process` (lines 169–190):
`last_seen_pts`, EMA smoothing, happened streak, negative streak. -/
def updateSignals (s : AggState) (ts conf : ℚ) (happened : Bool) : AggState :=
  let occ := occlusionOk s.last_seen_pts ts
  let ema := _ALPHA * conf + (1 - _ALPHA) * s.ema
  let hap := if happened then s.hap_streak + 1 else 0
  let neg := if ema ≤ _EXIT_THR ∧ occ = true then s.neg_streak + 1 else 0
  { s with last_seen_pts := some ts, ema := ema, hap_streak := hap, neg_streak := neg }

/-- Result of one `_process` call: the state as mutated so far, the bus
publications made, and `some msg` when the call terminated by raising. -/
structure ProcResult where
  state : AggState
  events : List Pub
  err : Option String
deriving DecidableEq, Repr

/-- The "normal new accident opening" block of `_process` (lines 222–236). -/
def openNewIncident (s : AggState) (ts conf : ℚ) (fidx : ℤ) (evs0 : List Pub) :
    ProcResult :=
  let r := _new_id s
  let inc : Incident :=
    { id := r.2, camera_id := s.camera_id, start_ts := ts, end_ts := ts,
      start_idx := fidx, end_idx := fidx, peak_conf := conf, pos_frames := 1 }
  { state := { r.1 with _open := some inc, hap_streak := 0 },
    events := evs0 ++ [(topic_for _TOPIC_OPEN_BASE s.camera_id,
                        BusEvent.openEv (mkOpenEv s inc))],
    err := none }

/-- The merge branch of `_process` (lines 195–220), entered with a pending
close inside the merge window.  A `KeyError` from
`_merge_reopen_into_pending` propagates: the state keeps the partially
mutated pending dict and the call raises. -/
def mergeBranch (s : AggState) (pc : CloseEv) (ts conf : ℚ) (fidx : ℤ)
    (evs0 : List Pub) : ProcResult :=
  match _merge_reopen_into_pending pc ts ts conf 1 fidx with
  | Except.error pc1 =>
    { state := { s with pending_close := some pc1 }, events := evs0,
      err := some "KeyError: start_ts" }
  | Except.ok pc2 =>
    -- lines 205–214 re-read the (now mutated) pending dict
    match pc2.start_ts with
    | none =>
      { state := { s with pending_close := some pc2 }, events := evs0,
        err := some "KeyError: start_ts" }
    | some st =>
      let inc : Incident :=
        { id := pc2.incident_id, camera_id := s.camera_id, start_ts := st,
          end_ts := ts, start_idx := fidx, end_idx := fidx,
          peak_conf := pc2.peak_confidence, pos_frames := pc2.pos_frames.getD 0 }
      let s' := { s with pending_close := none, pending_close_time := none }
      { state := { s' with _open := some inc, hap_streak := 0 },
        events := evs0, err := none }

/-- The "ongoing event update" block of `_process` (lines 238–253). -/
def ongoingUpdate (s : AggState) (inc : Incident) (ts conf : ℚ) (happened : Bool)
    (fidx : ℤ) (evs0 : List Pub) : ProcResult :=
  let pos1 := if happened then inc.pos_frames + 1 else inc.pos_frames
  let inc1 := { inc with end_ts := ts, end_idx := fidx, peak_conf := max inc.peak_conf conf, pos_frames := pos1 }
  if s.ema ≤ _EXIT_THR ∧ _MIN_END_NEG_FRAMES ≤ s.neg_streak then
    let s' := { s with _open := none, ema := 0, neg_streak := 0 }
    { state := { s' with pending_close := some (mkScheduledCloseEv s inc1), pending_close_time := some inc1.end_ts },
      events := evs0, err := none }
  else
    { state := { s with _open := some inc1 }, events := evs0, err := none }

/-- `AccidentAggregator._process`. -/
def _process (s0 : AggState) (det : Detection) : ProcResult :=
  let ts := det.pts_in_video
  let conf := det.confidence
  let happened := det.happened
  let fidx := det.frame_idx
  -- First handle timeout publication of the pending close event
  let fp := _flush_pending_close_if_expired s0 ts
  let s1 := fp.1
  let evs0 := fp.2
  -- Occlusion / EMA / streak updates
  let s2 := updateSignals s1 ts conf happened
  -- Open event decision
  match s2._open with
  | none =>
    if _REQUIRED_HAPPENED_CONSEC ≤ s2.hap_streak then
      match s2.pending_close, s2.pending_close_time with
      | some pc, some pct =>
        if ts - pct ≤ _MERGE_GAP_SEC then mergeBranch s2 pc ts conf fidx evs0
        else openNewIncident s2 ts conf fidx evs0
      | _, _ => openNewIncident s2 ts conf fidx evs0
    else
      { state := s2, events := evs0, err := none }
  | some inc =>
    -- open-decision guard `self._open is None` failed → ongoing update
    ongoingUpdate s2 inc ts conf happened fidx evs0

/-- The close-event dict built inline by `flush` for a still-open incident
(note the `"reason": "flush_open"` tag). -/
def mkFlushCloseEv (s : AggState) (inc : Incident) : FlushCloseEv :=
  { type := "accident_close", session_id := s.session_id,
    incident_id := inc.id, camera_id := s.camera_id,
    start_ts := inc.start_ts, end_ts := inc.end_ts,
    duration_sec := max 0 (inc.end_ts - inc.start_ts),
    peak_confidence := inc.peak_conf, pos_frames := inc.pos_frames,
    reason := "flush_open" }

/-- `AccidentAggregator.flush`. -/
def flush (s0 : AggState) : AggState × List Pub :=
  let r1 : AggState × List Pub :=
    match s0.pending_close with
    | some pc =>
      ({ s0 with pending_close := none, pending_close_time := none },
       [(topic_for _TOPIC_CLOSE_BASE s0.camera_id, BusEvent.closeEv pc)])
    | none => (s0, [])
  let s1 := r1.1
  match s1._open with
  | some inc =>
    ({ s1 with _open := none },
     r1.2 ++ [(topic_for _TOPIC_CLOSE_BASE s1.camera_id,
               BusEvent.flushCloseEv (mkFlushCloseEv s1 inc))])
  | none => (s1, r1.2)

/-- The aggregator main loop `run` consumes detections sequentially with
`await self._process(det)`; an uncaught exception kills the task, so
processing stops at the first raising call. -/
def runDetections (s : AggState) : List Detection → AggState × List Pub × Option String
  | [] => (s, [], none)
  | d :: ds =>
    let r := _process s d
    match r.err with
    | some e => (r.state, r.events, some e)
    | none =>
      let rest := runDetections r.state ds
      (rest.1, r.events ++ rest.2.1, rest.2.2)

/-! ## Topic bus (bus.py) -/

/-- Subscription delivery mode. -/
inductive SubMode where
  | fifo
  | latest
deriving DecidableEq, Repr

/-- `_Subscriber`: delivery mode, queue capacity, and the bounded
`asyncio.Queue` modelled as a list (head = oldest unread item). -/
structure Subscriber (α : Type) where
  mode : SubMode
  cap : ℕ
  queue : List α
deriving DecidableEq, Repr

/-- `_Subscriber.__init__`: `mode = "latest" if mode == "latest" else "fifo"`,
`cap = 1 if latest else max(1, int(maxsize))`, fresh empty queue. -/
def mkSubscriber (α : Type) (mode : String) (maxsize : ℤ) : Subscriber α :=
  let m := if mode = "latest" then SubMode.latest else SubMode.fifo
  let cap := if m = SubMode.latest then 1 else (max 1 maxsize).toNat
  { mode := m, cap := cap, queue := [] }

/-- `asyncio.Queue.put_nowait`: `none` models a raised `QueueFull`. -/
def put_nowait (q : List α) (cap : ℕ) (item : α) : Option (List α) :=
  if q.length < cap then some (q ++ [item]) else none

/-- `asyncio.Queue.get_nowait` with the caught-`QueueEmpty` pattern of
`deliver`: on an empty queue the exception is swallowed and the queue is
left unchanged, so this simply drops the oldest item when present. -/
def dropOldest (q : List α) : List α := q.drop 1

/-- `_Subscriber.deliver` (bus.py lines 51–81), a pure function of the
queue state: it only ever uses the non-blocking queue operations and
swallows every queue exception. -/
def deliver (sub : Subscriber α) (item : α) : Subscriber α :=
  match sub.mode with
  | SubMode.latest =>
    -- if self.queue.full(): get_nowait (QueueEmpty swallowed)
    let q0 := if sub.cap ≤ sub.queue.length then dropOldest sub.queue else sub.queue
    match put_nowait q0 sub.cap item with
    | some q1 => { sub with queue := q1 }
    | none =>
      -- QueueFull: drain the whole queue, then put again
      match put_nowait ([] : List α) sub.cap item with
      | some q2 => { sub with queue := q2 }
      | none => { sub with queue := [] }
  | SubMode.fifo =>
    match put_nowait sub.queue sub.cap item with
    | some q1 => { sub with queue := q1 }
    | none =>
      -- QueueFull: evict the oldest unread item, then put again
      let q0 := dropOldest sub.queue
      match put_nowait q0 sub.cap item with
      | some q1 => { sub with queue := q1 }
      | none => { sub with queue := q0 }

/-- `AsyncBus._topics`: the topic → subscriber-list map, as an association
list (insertion-ordered, keys unique by construction of `subscribe`). -/
structure BusState (α : Type) where
  topics : List (String × List (Subscriber α))
deriving DecidableEq, Repr

/-- Replace the subscriber list stored under a topic. -/
def updateTopic (ts : List (String × List (Subscriber α))) (topic : String)
    (subs : List (Subscriber α)) : List (String × List (Subscriber α)) :=
  ts.map fun p => if p.1 = topic then (topic, subs) else p

/-- `AsyncBus.publish`: snapshot `self._topics.get(topic, [])`; if the list
is missing or empty, return with no effect; otherwise `deliver` the item to
every subscriber in it (each `deliver` mutates only that subscriber's
queue, and its exceptions are swallowed by the `try/continue`). -/
def publish (bus : BusState α) (topic : String) (item : α) : BusState α :=
  match bus.topics.lookup topic with
  | none => bus
  | some subs =>
    if subs.isEmpty then bus
    else { topics := updateTopic bus.topics topic (subs.map fun sub => deliver sub item) }

/-! ## Equal-time sampler (frame_discrete.py, `run_sampler_equal_time`) -/

/-- `step = 1.0 / max(1e-3, target_fps)`. -/
def samplerStepSize (target_fps : ℚ) : ℚ := 1 / max (1/1000) target_fps

theorem samplerStepSize_pos (target_fps : ℚ) : 0 < samplerStepSize target_fps := by
  have h : (0:ℚ) < max (1/1000) target_fps :=
    lt_of_lt_of_le (by norm_num) (le_max_left _ _)
  exact div_pos one_pos h

/-- The inner `while f.pts_in_video + jitter_epsilon >= next_t` loop of
`run_sampler_equal_time`: emit the frame and advance `next_t += step` until
the grid point passes the frame's pts.  Returns the emitted frames (in
order) and the final `next_t`.  Terminates because `step > 0`. -/
def samplerLoop (f : Frame) (eps step : ℚ) (hstep : 0 < step) (next_t : ℚ) :
    List Frame × ℚ :=
  if _h : next_t ≤ f.pts_in_video + eps then
    let r := samplerLoop f eps step hstep (next_t + step)
    (f :: r.1, r.2)
  else ([], next_t)
termination_by (⌈(f.pts_in_video + eps - next_t) / step + 1⌉₊ : ℕ)
decreasing_by
  have hd : (0:ℚ) ≤ (f.pts_in_video + eps - (next_t + step)) / step + 1 := by
    have : 0 ≤ f.pts_in_video + eps - next_t := by linarith
    have h2 : (f.pts_in_video + eps - (next_t + step)) / step + 1
        = (f.pts_in_video + eps - next_t) / step := by
      field_simp
      ring
    rw [h2]
    positivity
  have h2 : (f.pts_in_video + eps - next_t) / step + 1
      = ((f.pts_in_video + eps - (next_t + step)) / step + 1) + 1 := by
    field_simp
    ring
  rw [h2, Nat.ceil_add_one hd]
  exact Nat.lt_succ_self _

/-- One iteration of the outer `while True` loop of
`run_sampler_equal_time`, for one frame received from `frames_raw`:
skip frames of other cameras; on the first matching frame align
`next_t` to its pts; then run the emission loop.  Returns the new
`next_t` state and the frames published to `frames`. -/
def samplerOnFrame (camera_id : String) (target_fps eps : ℚ) (next_t : Option ℚ)
    (f : Frame) : Option ℚ × List Frame :=
  if f.camera_id ≠ camera_id then (next_t, [])
  else
    let step := samplerStepSize target_fps
    let n0 := match next_t with
      | none => f.pts_in_video
      | some t => t
    let r := samplerLoop f eps step (samplerStepSize_pos target_fps) n0
    (some r.2, r.1)

/-- The sampler consuming a whole raw-frame stream in order, collecting
every frame published to `frames`. -/
def samplerRun (camera_id : String) (target_fps eps : ℚ) (next_t : Option ℚ) :
    List Frame → Option ℚ × List Frame
  | [] => (next_t, [])
  | f :: fs =>
    let r := samplerOnFrame camera_id target_fps eps next_t f
    let rest := samplerRun camera_id target_fps eps r.1 fs
    (rest.1, r.2 ++ rest.2)

/-! ## Batch scheduler result pairing (accident_detector.py lines 160–179) -/

def _DECISION_THRESH : ℚ := 7/10

/-- `res.boxes` of one ultralytics result: `nboxes` models `len(boxes)`,
`conf` models the `boxes.conf` attribute (`none` when `getattr` defaults). -/
structure Boxes where
  nboxes : ℕ
  conf : Option (List ℚ)
deriving DecidableEq, Repr

/-- One scorer result: `getattr(res, "boxes", None)`. -/
structure YoloResult where
  boxes : Option Boxes
deriving DecidableEq, Repr

/-- `confs.max()` on a (nonempty) tensor, modelled on lists; the `[]` case
is unreachable behind the `len(confs) > 0` guard. -/
def listMax : List ℚ → ℚ
  | [] => 0
  | x :: xs => xs.foldl max x

/-- The per-item confidence of `run_accident_detector_multi`:
no boxes, zero boxes, missing or empty `conf` → 0.0, else the max. -/
def scoreResult (res : YoloResult) : ℚ :=
  match res.boxes with
  | none => 0
  | some b =>
    if b.nboxes = 0 then 0
    else
      match b.conf with
      | none => 0
      | some confs => if 0 < confs.length then listMax confs else 0

/-- `_Item` dataclass. -/
structure BatchItem where
  cam : String
  frame : Frame
deriving DecidableEq, Repr

/-- The result-splitting loop of `run_accident_detector_multi`
(`for it, res in zip(batch_items, results): ...`): pair results to items
by position, build one `Detection` per pair, publish it to
`accident:<camera_id>`. -/
def publishResults (batch_items : List BatchItem) (results : List YoloResult) :
    List (String × Detection) :=
  (batch_items.zip results).map fun p =>
    let conf := scoreResult p.2
    let happened := decide (_DECISION_THRESH ≤ conf)
    (topic_for "accident" p.1.cam,
     { type := "accident", camera_id := p.1.cam, ts_unix := p.1.frame.ts_unix,
       happened := happened, confidence := conf, frame_idx := p.1.frame.frame_idx,
       pts_in_video := p.1.frame.pts_in_video })

/-! ## Session orchestrator (camera_pipeline.py) -/

/-- How the supervisor coroutine `_start`'s `await t_src` suspension
resumes: normal completion of the frame source, `asyncio.CancelledError`
(the frame-source task was cancelled), or another exception. -/
inductive AwaitOutcome where
  | completed
  | cancelled
  | raised
deriving DecidableEq, Repr

/-- The tail of the supervisor coroutine `_start` in
`SingleFileSession.start` (camera_pipeline.py lines 97–125), from the
`await t_src` suspension on, as a function of how that await resumes and of
the aggregator state then:
* normal completion → cancel the sampler, drain 0.8 s, `await aggregator.flush()`,
  cancel the aggregator task;
* `CancelledError` → the `except asyncio.CancelledError` handler runs
  `await aggregator.flush()` (its own exceptions swallowed);
* any other exception → only logged; no flush. -/
def startSupervisorTail (o : AwaitOutcome) (agg : AggState) : AggState × List Pub :=
  match o with
  | AwaitOutcome.completed => flush agg
  | AwaitOutcome.cancelled => flush agg
  | AwaitOutcome.raised => (agg, [])

/-- `SingleFileSession.stop` cancels `[t_src, t_smp, t_agg]` and awaits
their termination.  The supervisor coroutine is not among those tasks; it
is suspended at `await t_src`, and awaiting a cancelled task raises
`asyncio.CancelledError` (standard asyncio semantics), so the supervisor
resumes with the `cancelled` outcome. -/
def stopAwaitOutcome : AwaitOutcome := AwaitOutcome.cancelled

/-- Effect of `stop` on the aggregator of a running session whose
supervisor is parked at `await t_src`: the three tasks are cancelled and
the supervisor's `CancelledError` handler runs. -/
def stopSessionEffect (agg : AggState) : AggState × List Pub :=
  startSupervisorTail stopAwaitOutcome agg

/-! ## Helper lemmas -/

theorem updateSignals_open (s : AggState) (ts conf : ℚ) (h : Bool) :
    (updateSignals s ts conf h)._open = s._open := rfl

theorem updateSignals_pending (s : AggState) (ts conf : ℚ) (h : Bool) :
    (updateSignals s ts conf h).pending_close = s.pending_close := rfl

theorem updateSignals_pending_time (s : AggState) (ts conf : ℚ) (h : Bool) :
    (updateSignals s ts conf h).pending_close_time = s.pending_close_time := rfl

theorem updateSignals_camera (s : AggState) (ts conf : ℚ) (h : Bool) :
    (updateSignals s ts conf h).camera_id = s.camera_id := rfl

theorem updateSignals_session (s : AggState) (ts conf : ℚ) (h : Bool) :
    (updateSignals s ts conf h).session_id = s.session_id := rfl

theorem updateSignals_counter (s : AggState) (ts conf : ℚ) (h : Bool) :
    (updateSignals s ts conf h).counter = s.counter := rfl

theorem updateSignals_hap (s : AggState) (ts conf : ℚ) (h : Bool) :
    (updateSignals s ts conf h).hap_streak = (if h then s.hap_streak + 1 else 0) := rfl

theorem new_id_pending (s : AggState) :
    (_new_id s).1.pending_close = s.pending_close := rfl

theorem new_id_pending_time (s : AggState) :
    (_new_id s).1.pending_close_time = s.pending_close_time := rfl

theorem openNewIncident_pending (s : AggState) (ts conf : ℚ) (fidx : ℤ)
    (evs0 : List Pub) :
    (openNewIncident s ts conf fidx evs0).state.pending_close = s.pending_close := rfl

theorem openNewIncident_pending_time (s : AggState) (ts conf : ℚ) (fidx : ℤ)
    (evs0 : List Pub) :
    (openNewIncident s ts conf fidx evs0).state.pending_close_time
      = s.pending_close_time := rfl

theorem flushPending_of_pending_none (s : AggState) (ts : ℚ)
    (h : s.pending_close = none) :
    _flush_pending_close_if_expired s ts = (s, []) := by
  unfold _flush_pending_close_if_expired
  rw [h]

theorem flushPending_of_time_none (s : AggState) (ts : ℚ)
    (h : s.pending_close_time = none) :
    _flush_pending_close_if_expired s ts = (s, []) := by
  unfold _flush_pending_close_if_expired
  rcases hp : s.pending_close with _ | pc
  · rfl
  · rw [h]

theorem flushPending_expired (s : AggState) (ts : ℚ) (pc : CloseEv) (pct : ℚ)
    (h1 : s.pending_close = some pc) (h2 : s.pending_close_time = some pct)
    (h3 : _MERGE_GAP_SEC < ts - pct) :
    _flush_pending_close_if_expired s ts =
      ({ s with pending_close := none, pending_close_time := none },
       [(topic_for _TOPIC_CLOSE_BASE s.camera_id, BusEvent.closeEv pc)]) := by
  unfold _flush_pending_close_if_expired
  rw [h1, h2]
  simp [h3]

theorem flushPending_not_expired (s : AggState) (ts : ℚ) (pc : CloseEv) (pct : ℚ)
    (h1 : s.pending_close = some pc) (h2 : s.pending_close_time = some pct)
    (h3 : ¬ _MERGE_GAP_SEC < ts - pct) :
    _flush_pending_close_if_expired s ts = (s, []) := by
  unfold _flush_pending_close_if_expired
  rw [h1, h2]
  simp [h3]

theorem flushPending_open (s : AggState) (ts : ℚ) :
    (_flush_pending_close_if_expired s ts).1._open = s._open := by
  unfold _flush_pending_close_if_expired
  rcases hp : s.pending_close with _ | pc
  · rfl
  · rcases ht : s.pending_close_time with _ | pct
    · rfl
    · by_cases h3 : _MERGE_GAP_SEC < ts - pct
      · simp [h3]
      · simp [h3]

/-- The pending-close flush either clears both pending fields or leaves the
state untouched (and in the latter case no pending entry was expired). -/
theorem flushPending_cases (s : AggState) (ts : ℚ) :
    ((_flush_pending_close_if_expired s ts).1.pending_close = none ∧
     (_flush_pending_close_if_expired s ts).1.pending_close_time = none) ∨
    (_flush_pending_close_if_expired s ts).1 = s := by
  unfold _flush_pending_close_if_expired
  rcases hp : s.pending_close with _ | pc
  · right; rfl
  · rcases ht : s.pending_close_time with _ | pct
    · right; rfl
    · by_cases h3 : _MERGE_GAP_SEC < ts - pct
      · left; simp [h3]
      · right; simp [h3]

/-! ## C7: occlusion flag and negative streak -/

/-- C7: for every aggregator state and processed detection, `occlusion_ok`
is false exactly when a previous detection exists and the pts gap exceeds
`occlusion_grace_sec` (1.0); and after the signal update of `_process` the
negative streak is the previous value plus one when the (updated) EMA is at
most the exit threshold and `occlusion_ok` holds, and zero otherwise. -/
theorem aggregator_occlusion_neg_streak (s : AggState) (det : Detection) :
    (occlusionOk s.last_seen_pts det.pts_in_video = false ↔
      ∃ p, s.last_seen_pts = some p ∧ _OCCLUSION_GRACE_SEC < det.pts_in_video - p)
  ∧ ((updateSignals s det.pts_in_video det.confidence det.happened).neg_streak =
      if (updateSignals s det.pts_in_video det.confidence det.happened).ema ≤ _EXIT_THR ∧
         occlusionOk s.last_seen_pts det.pts_in_video = true
      then s.neg_streak + 1 else 0) := by
  constructor
  · rcases h : s.last_seen_pts with _ | p
    · simp [occlusionOk]
    · by_cases hg : _OCCLUSION_GRACE_SEC < det.pts_in_video - p
      · simp [occlusionOk, hg]
      · simp [occlusionOk, hg]
  · rfl

/-! ## C5: bus publish semantics -/

/-- C5: `publish` is a total function of the bus state (never blocks, never
raises).  Publishing to a missing or empty topic is a no-op; a `fifo`
delivery to a full queue evicts the oldest unread item and admits the new
one; every delivery inserts at most one item; a `latest` subscriber is
constructed with capacity 1 and each delivery supersedes the previous
unread item. -/
theorem bus_publish_spec {α : Type} (bus : BusState α) (topic : String) (item : α)
    (sub : Subscriber α) (maxsize : ℤ) :
    (bus.topics.lookup topic = none → publish bus topic item = bus)
  ∧ (bus.topics.lookup topic = some [] → publish bus topic item = bus)
  ∧ (sub.mode = SubMode.fifo → sub.queue.length = sub.cap → 0 < sub.cap →
      (deliver sub item).queue = sub.queue.drop 1 ++ [item])
  ∧ ((deliver sub item).queue.length ≤ sub.queue.length + 1)
  ∧ ((mkSubscriber α "latest" maxsize).cap = 1)
  ∧ (sub.mode = SubMode.latest → sub.cap = 1 → (deliver sub item).queue = [item]) := by
  refine ⟨?_, ?_, ?_, ?_, ?_, ?_⟩
  · intro h
    simp [publish, h]
  · intro h
    simp [publish, h]
  · intro hm hlen hcap
    have h1 : ¬ (sub.queue.length < sub.cap) := by omega
    have h2 : sub.queue.length - 1 < sub.cap := by omega
    simp [deliver, hm, put_nowait, dropOldest, h1, h2, List.drop_one]
  · rcases hm : sub.mode
    · simp only [deliver, hm, put_nowait, dropOldest]
      split_ifs <;> simp [Nat.sub_le_iff_le_add] <;> omega
    · simp only [deliver, hm, put_nowait, dropOldest]
      split_ifs <;> first
        | (simp; omega)
        | simp
  · simp [mkSubscriber]
  · intro hm hcap
    rcases sub with ⟨m, c, q⟩
    dsimp only at hm hcap
    subst hm
    subst hcap
    rcases q with _ | ⟨x, xs⟩
    · simp [deliver, put_nowait, dropOldest]
    · rcases xs with _ | ⟨y, ys⟩
      · simp [deliver, put_nowait, dropOldest]
      · simp [deliver, put_nowait, dropOldest]

/-- Witness for C5 at concrete inputs: a full two-slot fifo queue evicts
its oldest item; a latest subscriber with one unread item is superseded. -/
theorem bus_publish_spec_witness :
    (deliver { mode := SubMode.fifo, cap := 2, queue := [10, 20] } (30 : ℕ)).queue
      = [20, 30]
  ∧ (deliver { mode := SubMode.latest, cap := 1, queue := [10] } (30 : ℕ)).queue
      = [30] := by
  constructor
  · have h := (bus_publish_spec (α := ℕ) ⟨[]⟩ "t" 30
      { mode := SubMode.fifo, cap := 2, queue := [10, 20] } 0).2.2.1 rfl rfl (by norm_num)
    simpa using h
  · have h := (bus_publish_spec (α := ℕ) ⟨[]⟩ "t" 30
      { mode := SubMode.latest, cap := 1, queue := [10] } 0).2.2.2.2.2 rfl rfl
    simpa using h

/-! ## C9: batch scheduler result pairing -/

/-- C9: the result-splitting loop pairs scorer results to batch items by
position; each pair yields one `Detection` published to
`accident:<camera_id>` carrying the frame's `ts_unix`, `frame_idx` and
`pts_in_video` unchanged, with confidence `scoreResult` and
`happened = (confidence ≥ decision_threshold)`; a result with no boxes, no
`conf` attribute or an empty confidence list scores 0 and `happened` is
then false. -/
theorem detector_pairing (items : List BatchItem) (results : List YoloResult) :
    ((publishResults items results).length = min items.length results.length)
  ∧ (∀ (i : ℕ) (h1 : i < items.length) (h2 : i < results.length)
        (h3 : i < (publishResults items results).length),
      (publishResults items results).get ⟨i, h3⟩ =
        (topic_for "accident" (items.get ⟨i, h1⟩).cam,
         { type := "accident", camera_id := (items.get ⟨i, h1⟩).cam,
           ts_unix := (items.get ⟨i, h1⟩).frame.ts_unix,
           happened := decide (_DECISION_THRESH ≤ scoreResult (results.get ⟨i, h2⟩)),
           confidence := scoreResult (results.get ⟨i, h2⟩),
           frame_idx := (items.get ⟨i, h1⟩).frame.frame_idx,
           pts_in_video := (items.get ⟨i, h1⟩).frame.pts_in_video }))
  ∧ (∀ res : YoloResult, res.boxes = none → scoreResult res = 0)
  ∧ (∀ (res : YoloResult) (b : Boxes), res.boxes = some b →
      (b.nboxes = 0 ∨ b.conf = none ∨ b.conf = some []) → scoreResult res = 0)
  ∧ (decide (_DECISION_THRESH ≤ (0:ℚ)) = false) := by
  refine ⟨?_, ?_, ?_, ?_, ?_⟩
  · simp [publishResults]
  · intro i h1 h2 h3
    simp [publishResults, List.get_eq_getElem, List.getElem_map, List.getElem_zip]
  · intro res h
    simp [scoreResult, h]
  · intro res b hb hcase
    rcases hcase with h0 | hc | he
    · simp [scoreResult, hb, h0]
    · by_cases h0 : b.nboxes = 0
      · simp [scoreResult, hb, h0]
      · simp [scoreResult, hb, h0, hc]
    · by_cases h0 : b.nboxes = 0
      · simp [scoreResult, hb, h0]
      · simp [scoreResult, hb, h0, he]
  · norm_num [_DECISION_THRESH]

/-- Witness for C9: a one-item batch paired with a two-box result. -/
theorem detector_pairing_witness :
    (publishResults
      [{ cam := "cam-9",
         frame := { camera_id := "cam-9", ts_unix := 5, rgb := 0,
                    frame_idx := 7, pts_in_video := 3/2 } }]
      [{ boxes := some { nboxes := 2, conf := some [3/5, 4/5] } }]).length = 1
  ∧ scoreResult { boxes := none } = 0 := by
  constructor
  · have h := (detector_pairing
      [{ cam := "cam-9",
         frame := { camera_id := "cam-9", ts_unix := 5, rgb := 0,
                    frame_idx := 7, pts_in_video := 3/2 } }]
      [{ boxes := some { nboxes := 2, conf := some [3/5, 4/5] } }]).1
    simpa using h
  · exact (detector_pairing [] []).2.2.1 _ rfl

/-! ## C6: flush semantics -/

/-- C6: `flush` force-closes a still-open incident with exactly one close
event tagged `reason = "flush_open"`, publishes a held pending close
immediately (first, with no further grace), emits exactly one close per
active/pending incident, and leaves both `_open` and `_pending_close`
cleared. -/
theorem flush_spec (s : AggState) :
    ((flush s).1._open = none ∧ (flush s).1.pending_close = none)
  ∧ (∀ inc, s._open = some inc → s.pending_close = none →
      (flush s).2 = [(topic_for _TOPIC_CLOSE_BASE s.camera_id,
                      BusEvent.flushCloseEv (mkFlushCloseEv s inc))] ∧
      (mkFlushCloseEv s inc).reason = "flush_open")
  ∧ (∀ pc, s.pending_close = some pc →
      (flush s).2.head? =
        some (topic_for _TOPIC_CLOSE_BASE s.camera_id, BusEvent.closeEv pc))
  ∧ ((closeEvents (flush s).2).length =
      (if s.pending_close.isSome then 1 else 0) +
      (if s._open.isSome then 1 else 0)) := by
  rcases hp : s.pending_close with _ | pc <;> rcases ho : s._open with _ | inc
  · refine ⟨⟨?_, ?_⟩, ?_, ?_, ?_⟩ <;>
      simp [flush, hp, ho, closeEvents]
  · refine ⟨⟨?_, ?_⟩, ?_, ?_, ?_⟩ <;>
      simp [flush, hp, ho, closeEvents, isCloseEvent, mkFlushCloseEv]
  · refine ⟨⟨?_, ?_⟩, ?_, ?_, ?_⟩ <;>
      simp [flush, hp, ho, closeEvents, isCloseEvent]
  · refine ⟨⟨?_, ?_⟩, ?_, ?_, ?_⟩ <;>
      simp [flush, hp, ho, closeEvents, isCloseEvent, mkFlushCloseEv]

/-- Witness for C6: flushing a state holding an open incident. -/
theorem flush_spec_witness :
    (flush { initAgg "cam-1" "sess" with
             _open := some { id := "i1", camera_id := "cam-1", start_ts := 1,
                             end_ts := 2, start_idx := 3, end_idx := 4,
                             peak_conf := 1/2, pos_frames := 5 } }).2 =
      [(topic_for _TOPIC_CLOSE_BASE "cam-1",
        BusEvent.flushCloseEv
          (mkFlushCloseEv { initAgg "cam-1" "sess" with
             _open := some { id := "i1", camera_id := "cam-1", start_ts := 1,
                             end_ts := 2, start_idx := 3, end_idx := 4,
                             peak_conf := 1/2, pos_frames := 5 } }
            { id := "i1", camera_id := "cam-1", start_ts := 1, end_ts := 2,
              start_idx := 3, end_idx := 4, peak_conf := 1/2, pos_frames := 5 }))] := by
  exact ((flush_spec _).2.1 _ rfl rfl).1

/-! ## Step lemmas for `_process` -/

/-- With no pending close and no open incident, a detection that does not
complete the happened streak leaves only the signal updates. -/
theorem process_no_open_yet (s : AggState) (det : Detection)
    (hopen : s._open = none) (hpend : s.pending_close = none)
    (hcnt : ¬ _REQUIRED_HAPPENED_CONSEC ≤ (if det.happened then s.hap_streak + 1 else 0)) :
    _process s det =
      { state := updateSignals s det.pts_in_video det.confidence det.happened,
        events := [], err := none } := by
  have hfp := flushPending_of_pending_none s det.pts_in_video hpend
  simp only [_process, hfp]
  simp only [updateSignals_open, updateSignals_hap, hopen]
  rw [if_neg hcnt]

/-- With no pending close and no open incident, a detection that completes
the happened streak takes the normal-open branch. -/
theorem process_open_fires (s : AggState) (det : Detection)
    (hopen : s._open = none) (hpend : s.pending_close = none)
    (hcnt : _REQUIRED_HAPPENED_CONSEC ≤ (if det.happened then s.hap_streak + 1 else 0)) :
    _process s det =
      openNewIncident (updateSignals s det.pts_in_video det.confidence det.happened)
        det.pts_in_video det.confidence det.frame_idx [] := by
  have hfp := flushPending_of_pending_none s det.pts_in_video hpend
  simp only [_process, hfp]
  simp only [updateSignals_open, updateSignals_hap, updateSignals_pending, hopen, hpend]
  rw [if_pos hcnt]

/-- While an incident is open, `_process` emits no open event. -/
theorem process_open_no_open_event (s : AggState) (det : Detection)
    (hopen : s._open.isSome) : openEvents (_process s det).events = [] := by
  unfold _process
  rcases hfp : _flush_pending_close_if_expired s det.pts_in_video with ⟨s1, evs0⟩
  have h1 : s1._open = s._open := by
    have := flushPending_open s det.pts_in_video
    rw [hfp] at this
    exact this
  have hevs : openEvents evs0 = [] := by
    rcases hp : s.pending_close with _ | pc
    · rw [flushPending_of_pending_none s det.pts_in_video hp] at hfp
      cases hfp
      rfl
    · rcases ht : s.pending_close_time with _ | pct
      · rw [flushPending_of_time_none s det.pts_in_video ht] at hfp
        cases hfp
        rfl
      · by_cases h3 : _MERGE_GAP_SEC < det.pts_in_video - pct
        · rw [flushPending_expired s det.pts_in_video pc pct hp ht h3] at hfp
          cases hfp
          rfl
        · rw [flushPending_not_expired s det.pts_in_video pc pct hp ht h3] at hfp
          cases hfp
          rfl
  rcases ho : s._open with _ | inc
  · rw [ho] at hopen
    cases hopen
  · simp only [_process, hfp]
    simp only [updateSignals_open, h1, ho, ongoingUpdate]
    split_ifs <;> simpa using hevs

/-! ## C1: the open event and the detection it captures -/

/-- Start fields (pts, frame_idx) of the open events in a publication list. -/
def openEvPtsIdx (evs : List Pub) : List (ℚ × ℤ) :=
  evs.filterMap fun e =>
    match e.2 with
    | BusEvent.openEv ev => some (ev.pts_in_video, ev.frame_idx)
    | _ => none

/-- C1 (amended): from IDLE (no open incident, no pending close, zero
happened streak), a run of three happened=true detections publishes exactly
one open event, emitted at the third detection of the run — not its first —
with `pts_in_video`/`frame_idx` equal to the third detection's pts and
frame index, `confidence`/`peak_confidence` equal to the third detection's
confidence, and the captured incident has `positive_frame_count` 1; no
further open event can be emitted while the incident stays open. -/
theorem open_event_at_streak_completion (s : AggState) (d1 d2 d3 : Detection)
    (hopen : s._open = none) (hpend : s.pending_close = none) (hhap : s.hap_streak = 0)
    (h1 : d1.happened = true) (h2 : d2.happened = true) (h3 : d3.happened = true) :
    (∃ ev : OpenEv,
      (runDetections s [d1, d2, d3]).2.1 =
        [(topic_for _TOPIC_OPEN_BASE s.camera_id, BusEvent.openEv ev)]
      ∧ ev.pts_in_video = d3.pts_in_video ∧ ev.frame_idx = d3.frame_idx
      ∧ ev.confidence = d3.confidence ∧ ev.peak_confidence = d3.confidence)
  ∧ (runDetections s [d1, d2]).2.1 = []
  ∧ (∃ inc : Incident, (runDetections s [d1, d2, d3]).1._open = some inc
      ∧ inc.start_ts = d3.pts_in_video ∧ inc.start_idx = d3.frame_idx
      ∧ inc.peak_conf = d3.confidence ∧ inc.pos_frames = 1)
  ∧ (∀ (t : AggState) (det : Detection), t._open.isSome →
      openEvents (_process t det).events = []) := by
  have e1 := process_no_open_yet s d1 hopen hpend
    (by simp [h1, hhap, _REQUIRED_HAPPENED_CONSEC])
  set u1 := updateSignals s d1.pts_in_video d1.confidence d1.happened with hu1
  have hu1open : u1._open = none := by rw [hu1, updateSignals_open]; exact hopen
  have hu1pend : u1.pending_close = none := by rw [hu1, updateSignals_pending]; exact hpend
  have hu1hap : u1.hap_streak = 1 := by
    rw [hu1, updateSignals_hap, h1]
    simp [hhap]
  have hu1cam : u1.camera_id = s.camera_id := by rw [hu1, updateSignals_camera]
  have e2 := process_no_open_yet u1 d2 hu1open hu1pend
    (by simp [h2, hu1hap, _REQUIRED_HAPPENED_CONSEC])
  set u2 := updateSignals u1 d2.pts_in_video d2.confidence d2.happened with hu2
  have hu2open : u2._open = none := by rw [hu2, updateSignals_open]; exact hu1open
  have hu2pend : u2.pending_close = none := by rw [hu2, updateSignals_pending]; exact hu1pend
  have hu2hap : u2.hap_streak = 2 := by
    rw [hu2, updateSignals_hap, h2]
    simp [hu1hap]
  have hu2cam : u2.camera_id = s.camera_id := by
    rw [hu2, updateSignals_camera]; exact hu1cam
  have e3 := process_open_fires u2 d3 hu2open hu2pend
    (by simp [h3, hu2hap, _REQUIRED_HAPPENED_CONSEC])
  set u3 := updateSignals u2 d3.pts_in_video d3.confidence d3.happened with hu3def
  have hu3cam : u3.camera_id = s.camera_id := by
    rw [hu3def, updateSignals_camera]; exact hu2cam
  have hu3sess : u3.session_id = s.session_id := by
    rw [hu3def, updateSignals_session, hu2, updateSignals_session, hu1,
      updateSignals_session]
  have hu3cnt : u3.counter = s.counter := by
    rw [hu3def, updateSignals_counter, hu2, updateSignals_counter, hu1,
      updateSignals_counter]
  refine ⟨?_, ?_, ?_, ?_⟩
  · refine ⟨{ type := "accident_open", camera_id := s.camera_id,
              frame_idx := d3.frame_idx, pts_in_video := d3.pts_in_video,
              confidence := d3.confidence, session_id := s.session_id,
              incident_id := s.session_id ++ "-" ++ s.camera_id ++ "-" ++
                pad6 (s.counter + 1),
              peak_confidence := d3.confidence }, ?_, rfl, rfl, rfl, rfl⟩
    simp only [runDetections, e1, e2, e3, openNewIncident, mkOpenEv, _new_id]
    simp [hu3cam, hu3sess, hu3cnt]
  · simp only [runDetections, e1, e2]
    rfl
  · refine ⟨{ id := s.session_id ++ "-" ++ s.camera_id ++ "-" ++ pad6 (s.counter + 1),
              camera_id := s.camera_id, start_ts := d3.pts_in_video,
              end_ts := d3.pts_in_video, start_idx := d3.frame_idx,
              end_idx := d3.frame_idx, peak_conf := d3.confidence,
              pos_frames := 1 }, ?_, rfl, rfl, rfl, rfl⟩
    simp only [runDetections, e1, e2, e3, openNewIncident, mkOpenEv, _new_id]
    simp [hu3cam, hu3sess, hu3cnt]
  · exact process_open_no_open_event

/-- The IDLE run used to settle C1 concretely: three consecutive
happened=true detections with distinct pts and frame indices. -/
def c1d1 : Detection :=
  { type := "accident", camera_id := "cam-1", ts_unix := 0, happened := true,
    confidence := 9/10, frame_idx := 0, pts_in_video := 0 }

def c1d2 : Detection :=
  { type := "accident", camera_id := "cam-1", ts_unix := 0, happened := true,
    confidence := 9/10, frame_idx := 1, pts_in_video := 1/10 }

def c1d3 : Detection :=
  { type := "accident", camera_id := "cam-1", ts_unix := 0, happened := true,
    confidence := 9/10, frame_idx := 2, pts_in_video := 1/5 }

/-- C1 counterexample: for the IDLE run `c1d1, c1d2, c1d3` (all
happened=true, so a run of length `required_consecutive`), exactly one open
event is published, but its start fields are the pts/frame_idx of the THIRD
detection of the run (1/5, 2), not those of the FIRST detection (0, 0) —
refuting the claim's "equal the pts and frame_idx of the FIRST detection of
that run". -/
theorem open_event_start_fields_not_first :
    (c1d1.happened = true ∧ c1d2.happened = true ∧ c1d3.happened = true)
  ∧ openEvPtsIdx (runDetections (initAgg "cam-1" "sess") [c1d1, c1d2, c1d3]).2.1
      = [(1/5, 2)]
  ∧ (c1d1.pts_in_video = 0 ∧ c1d1.frame_idx = 0)
  ∧ ¬ (((1:ℚ)/5, (2:ℤ)) = (c1d1.pts_in_video, c1d1.frame_idx)) := by
  refine ⟨⟨rfl, rfl, rfl⟩, ?_, ⟨rfl, rfl⟩, by norm_num [c1d1]⟩
  norm_num [c1d1, c1d2, c1d3, runDetections, _process, initAgg,
    _flush_pending_close_if_expired, updateSignals, occlusionOk, openNewIncident,
    mergeBranch, ongoingUpdate, _new_id, mkOpenEv, mkScheduledCloseEv,
    _merge_reopen_into_pending, openEvPtsIdx, _ALPHA, _EXIT_THR,
    _REQUIRED_HAPPENED_CONSEC, _MIN_END_NEG_FRAMES, _OCCLUSION_GRACE_SEC,
    _MERGE_GAP_SEC, topic_for, _TOPIC_OPEN_BASE, _TOPIC_CLOSE_BASE,
    List.filterMap_cons]

/-- Witness for the amended C1 theorem at the concrete IDLE run. -/
theorem open_event_at_streak_completion_witness :
    openEvPtsIdx (runDetections (initAgg "cam-1" "sess") [c1d1, c1d2, c1d3]).2.1
      = [(c1d3.pts_in_video, c1d3.frame_idx)] := by
  obtain ⟨⟨ev, hev, hp, hf, -, -⟩, -, -, -⟩ :=
    open_event_at_streak_completion (initAgg "cam-1" "sess") c1d1 c1d2 c1d3
      rfl rfl rfl rfl rfl rfl
  rw [hev]
  simp [openEvPtsIdx, hp, hf]

/-! ## C2: reopen inside the merge window -/

/-- Detections of the C2 failing trace (camera cam-1). -/
def c2det (h : Bool) (c : ℚ) (fi : ℤ) (p : ℚ) : Detection :=
  { type := "accident", camera_id := "cam-1", ts_unix := 0, happened := h,
    confidence := c, frame_idx := fi, pts_in_video := p }

/-- C2 failing input: three positives open an incident; eight consecutive
low-EMA negatives schedule a pending close at pts 1.0; three positives at
pts 1.1/1.2/1.3 re-satisfy the open condition 0.3 s after the pending
close — well inside the 5 s merge window. -/
def c2trace : List Detection :=
  [c2det true (9/10) 0 0, c2det true (9/10) 1 (1/10), c2det true (9/10) 2 (1/5),
   c2det false 0 3 (3/10), c2det false 0 4 (2/5), c2det false 0 5 (1/2),
   c2det false 0 6 (3/5), c2det false 0 7 (7/10), c2det false 0 8 (4/5),
   c2det false 0 9 (9/10), c2det false 0 10 1,
   c2det true (9/10) 11 (11/10), c2det true (9/10) 12 (6/5),
   c2det true (9/10) 13 (13/10)]

/-- The half-mutated pending close left behind by the failed merge on the
C2 trace: `end_ts` was added by the first line of
`_merge_reopen_into_pending`, `start_ts` was never present. -/
def c2finalPending : CloseEv :=
  { type := "accident_close", camera_id := "cam-1", frame_idx := 10,
    pts_in_video := 1, confidence := 9/10, session_id := "sess",
    incident_id := "sess" ++ "-" ++ "cam-1" ++ "-" ++ pad6 1,
    duration_sec := 4/5, peak_confidence := 9/10,
    end_ts := some (13/10), start_ts := none, pos_frames := none }

/-- The single open event published on the C2 trace (at its third
detection). -/
def c2openEv : OpenEv :=
  { type := "accident_open", camera_id := "cam-1", frame_idx := 2,
    pts_in_video := 1/5, confidence := 9/10, session_id := "sess",
    incident_id := "sess" ++ "-" ++ "cam-1" ++ "-" ++ pad6 1,
    peak_confidence := 9/10 }

/-- C2: on the failing trace the reopen inside the merge window does not
merge — `_merge_reopen_into_pending` reads the `start_ts` key, which
`_schedule_close` never put into the pending dict, so `_process` raises
`KeyError` and the aggregator task dies: no close event, no reopened
incident, the pending close left half-mutated (its `end_ts` key was added
before the raise, `start_ts` still absent) and still unpublished. -/
theorem merge_reopen_raises_keyerror :
    (runDetections (initAgg "cam-1" "sess") c2trace).2.2 = some "KeyError: start_ts"
  ∧ closeEvents (runDetections (initAgg "cam-1" "sess") c2trace).2.1 = []
  ∧ (openEvents (runDetections (initAgg "cam-1" "sess") c2trace).2.1).length = 1
  ∧ (runDetections (initAgg "cam-1" "sess") c2trace).1._open = none
  ∧ (∃ pc, (runDetections (initAgg "cam-1" "sess") c2trace).1.pending_close = some pc
        ∧ pc.start_ts = none ∧ pc.end_ts = some (13/10))
  ∧ (runDetections (initAgg "cam-1" "sess") c2trace).1.pending_close_time = some 1
  ∧ ((13:ℚ)/10 - 1 ≤ _MERGE_GAP_SEC) := by
  have hrun : runDetections (initAgg "cam-1" "sess") c2trace =
      ({ camera_id := "cam-1", session_id := "sess", counter := 1, ema := 333/640,
         hap_streak := 3, neg_streak := 0, _open := none,
         last_seen_pts := some (13/10),
         pending_close := some c2finalPending, pending_close_time := some 1 },
       [(topic_for _TOPIC_OPEN_BASE "cam-1", BusEvent.openEv c2openEv)],
       some "KeyError: start_ts") := by
    norm_num [c2det, c2trace, runDetections, _process, initAgg,
      _flush_pending_close_if_expired, updateSignals, occlusionOk, openNewIncident,
      mergeBranch, ongoingUpdate, _new_id, mkOpenEv, mkScheduledCloseEv,
      _merge_reopen_into_pending, _ALPHA, _EXIT_THR, _REQUIRED_HAPPENED_CONSEC,
      _MIN_END_NEG_FRAMES, _OCCLUSION_GRACE_SEC, _MERGE_GAP_SEC, max_def,
      c2finalPending, c2openEv]
  refine ⟨?_, ?_, ?_, ?_, ?_, ?_, by norm_num [_MERGE_GAP_SEC]⟩
  · rw [hrun]
  · rw [hrun]
    rfl
  · rw [hrun]
    rfl
  · rw [hrun]
  · rw [hrun]
    exact ⟨c2finalPending, rfl, rfl, rfl⟩
  · rw [hrun]

/-! ## C4: external stop of a running session -/

/-- An aggregator state holding an open incident, as at the moment `stop`
is called mid-video. -/
def c4inc : Incident :=
  { id := "i4", camera_id := "cam-1", start_ts := 1, end_ts := 2,
    start_idx := 10, end_idx := 20, peak_conf := 4/5, pos_frames := 6 }

def c4state : AggState :=
  { initAgg "cam-1" "sess" with _open := some c4inc }

/-- C4 counterexample: with incident `c4inc` open at the moment of stop,
`stop` does NOT discard it — the supervisor's `await t_src` resumes with
`CancelledError` (because `stop` cancelled the frame-source task) and its
handler runs `aggregator.flush()`, publishing exactly one close event for
the open incident.  This refutes the claim that stopping a session
publishes no close event for an open incident. -/
theorem stop_flushes_open_incident :
    c4state._open = some c4inc
  ∧ (stopSessionEffect c4state).2 =
      [(topic_for _TOPIC_CLOSE_BASE "cam-1",
        BusEvent.flushCloseEv (mkFlushCloseEv c4state c4inc))]
  ∧ closeEvents (stopSessionEffect c4state).2 ≠ []
  ∧ (mkFlushCloseEv c4state c4inc).reason = "flush_open" := by
  refine ⟨rfl, ?_, ?_, rfl⟩
  · simp [stopSessionEffect, startSupervisorTail, stopAwaitOutcome, flush,
      c4state, initAgg]
  · simp [stopSessionEffect, startSupervisorTail, stopAwaitOutcome, flush,
      c4state, initAgg, closeEvents, isCloseEvent]

/-- C4 (amended): `stop` cancels all three tasks and awaits their
termination, but it does not discard an open incident: the supervisor
coroutine, woken from `await t_src` with `CancelledError`, flushes the
aggregator, so an incident open at the moment of stop is force-closed and
exactly one close event (tagged `flush_open`) is published for it. -/
theorem stop_cancellation_flushes (s : AggState) (inc : Incident)
    (hopen : s._open = some inc) (hpend : s.pending_close = none) :
    (stopSessionEffect s).2 =
      [(topic_for _TOPIC_CLOSE_BASE s.camera_id,
        BusEvent.flushCloseEv (mkFlushCloseEv s inc))]
  ∧ (mkFlushCloseEv s inc).reason = "flush_open"
  ∧ (stopSessionEffect s).1._open = none
  ∧ stopAwaitOutcome = AwaitOutcome.cancelled := by
  refine ⟨?_, rfl, ?_, rfl⟩
  · simp [stopSessionEffect, startSupervisorTail, stopAwaitOutcome, flush,
      hopen, hpend]
  · simp [stopSessionEffect, startSupervisorTail, stopAwaitOutcome, flush,
      hopen, hpend]

/-- Witness for the amended C4 theorem at the concrete stopped state. -/
theorem stop_cancellation_flushes_witness :
    (stopSessionEffect c4state).2 =
      [(topic_for _TOPIC_CLOSE_BASE c4state.camera_id,
        BusEvent.flushCloseEv (mkFlushCloseEv c4state c4inc))] :=
  (stop_cancellation_flushes c4state c4inc rfl rfl).1

/-! ## C8: equal-time sampler -/

theorem samplerLoop_emit (f : Frame) (eps step : ℚ) (hs : 0 < step) (t : ℚ)
    (hc : t ≤ f.pts_in_video + eps) :
    samplerLoop f eps step hs t =
      (f :: (samplerLoop f eps step hs (t + step)).1,
       (samplerLoop f eps step hs (t + step)).2) := by
  rw [samplerLoop]
  simp [hc]

theorem samplerLoop_stop (f : Frame) (eps step : ℚ) (hs : 0 < step) (t : ℚ)
    (hc : ¬ t ≤ f.pts_in_video + eps) :
    samplerLoop f eps step hs t = ([], t) := by
  rw [samplerLoop]
  simp [hc]

/-- Full characterization of the sampler's inner while loop: it emits the
frame once per grid point `t, t+step, …` not exceeding `pts + eps`, and
leaves `next_t` at the first grid point beyond. -/
theorem samplerLoop_spec (f : Frame) (eps step : ℚ) (hs : 0 < step) (t : ℚ) :
    ∃ n : ℕ, samplerLoop f eps step hs t = (List.replicate n f, t + n * step)
      ∧ f.pts_in_video + eps < t + n * step
      ∧ (∀ k : ℕ, k < n → t + k * step ≤ f.pts_in_video + eps) := by
  induction t using samplerLoop.induct f eps step hs with
  | case1 t hc ih =>
    obtain ⟨n, heq, hlt, hle⟩ := ih
    refine ⟨n + 1, ?_, ?_, ?_⟩
    · rw [samplerLoop_emit f eps step hs t hc, heq]
      simp only [List.replicate_succ, Prod.mk.injEq]
      constructor
      · trivial
      · push_cast
        ring
    · push_cast
      push_cast at hlt
      linarith
    · intro k hk
      rcases k with _ | j
      · simpa using hc
      · have hj := hle j (by omega)
        push_cast
        push_cast at hj
        linarith
  | case2 t hc =>
    refine ⟨0, ?_, ?_, ?_⟩
    · rw [samplerLoop_stop f eps step hs t hc]
      simp
    · push_neg at hc
      simpa using hc
    · intro k hk
      omega

/-- The raw pts stream of the spec's sampler example, camera cam-1. -/
def c8f0 : Frame :=
  { camera_id := "cam-1", ts_unix := 0, rgb := 0, frame_idx := 0, pts_in_video := 0 }

def c8f1 : Frame :=
  { camera_id := "cam-1", ts_unix := 0, rgb := 1, frame_idx := 1, pts_in_video := 1/20 }

def c8f2 : Frame :=
  { camera_id := "cam-1", ts_unix := 0, rgb := 2, frame_idx := 2, pts_in_video := 9/100 }

def c8f3 : Frame :=
  { camera_id := "cam-1", ts_unix := 0, rgb := 3, frame_idx := 3, pts_in_video := 1/5 }

/-- C8: with `target_fps = 10` (step 1/10) and the default jitter epsilon
1e-4, the raw pts stream 0.0, 0.05, 0.09, 0.20 publishes exactly three
frames — the frame at pts 0.0 once (grid point 0.0) and the frame at pts
0.20 twice (grid points 0.1 and 0.2); the frames at pts 0.05 and 0.09 are
never published.  In general the inner loop emits the incoming frame once
per grid point while `frame.pts + epsilon ≥ next_emit_pts`, advancing
`next_emit_pts` by `step` per emission. -/
theorem sampler_equal_time_example :
    (samplerRun "cam-1" 10 (1/10000) none [c8f0, c8f1, c8f2, c8f3]).2
      = [c8f0, c8f3, c8f3]
  ∧ c8f1 ∉ (samplerRun "cam-1" 10 (1/10000) none [c8f0, c8f1, c8f2, c8f3]).2
  ∧ c8f2 ∉ (samplerRun "cam-1" 10 (1/10000) none [c8f0, c8f1, c8f2, c8f3]).2
  ∧ samplerStepSize 10 = 1/10
  ∧ (∀ (f : Frame) (eps step : ℚ) (hs : 0 < step) (t : ℚ),
      ∃ n : ℕ, samplerLoop f eps step hs t = (List.replicate n f, t + n * step)
        ∧ f.pts_in_video + eps < t + n * step
        ∧ ∀ k : ℕ, k < n → t + k * step ≤ f.pts_in_video + eps) := by
  have hmain : (samplerRun "cam-1" 10 (1/10000) none [c8f0, c8f1, c8f2, c8f3]).2
      = [c8f0, c8f3, c8f3] := by
    norm_num [samplerRun, samplerOnFrame, samplerStepSize, c8f0, c8f1, c8f2, c8f3,
      samplerLoop_emit, samplerLoop_stop, max_def]
  refine ⟨hmain, ?_, ?_, ?_, samplerLoop_spec⟩
  · rw [hmain]
    norm_num [c8f0, c8f1, c8f3, Frame.mk.injEq]
  · rw [hmain]
    norm_num [c8f0, c8f2, c8f3, Frame.mk.injEq]
  · norm_num [samplerStepSize, max_def]

/-- Witness for the general sampler-loop part of C8, at the frame of pts
0.20, grid start 0.1, step 1/10. -/
theorem sampler_equal_time_example_witness :
    ∃ n : ℕ, samplerLoop c8f3 (1/10000) (samplerStepSize 10)
        (samplerStepSize_pos 10) (1/10)
      = (List.replicate n c8f3, 1/10 + n * samplerStepSize 10)
      ∧ c8f3.pts_in_video + 1/10000 < 1/10 + n * samplerStepSize 10
      ∧ ∀ k : ℕ, k < n → 1/10 + k * samplerStepSize 10 ≤ c8f3.pts_in_video + 1/10000 :=
  sampler_equal_time_example.2.2.2.2 c8f3 (1/10000) (samplerStepSize 10)
    (samplerStepSize_pos 10) (1/10)

/-! ## C3: close scheduling and pending-close expiry -/

/-- C3: (i) while an incident is OPEN with no pending close, a detection
after whose signal update `ema ≤ exit_threshold` and
`neg_streak ≥ min_end_neg_frames` hold makes the close pending: `_process`
publishes nothing at that moment, clears `_open`, and stores a pending
close whose pts/duration come from the incident extended to this
detection; with monotone pts (`start_ts ≤ pts`) its `duration_sec` equals
`end_ts − start_ts`.  (ii) The pending-close expiry check runs first on
every detection: on the first detection whose pts exceeds
`pending_ts + merge_gap_sec` (no intervening reopen, `_open = none`),
exactly one close event — the pending one — is published, at the head of
the call's publications, and the pending slot is cleared. -/
theorem close_pending_then_expiry :
    (∀ (s : AggState) (det : Detection) (inc : Incident),
      s._open = some inc → s.pending_close = none →
      (updateSignals s det.pts_in_video det.confidence det.happened).ema ≤ _EXIT_THR →
      _MIN_END_NEG_FRAMES ≤
        (updateSignals s det.pts_in_video det.confidence det.happened).neg_streak →
      (_process s det).events = [] ∧ (_process s det).err = none
      ∧ (_process s det).state._open = none
      ∧ (_process s det).state.pending_close_time = some det.pts_in_video
      ∧ ∃ pc, (_process s det).state.pending_close = some pc
          ∧ pc.incident_id = inc.id
          ∧ pc.pts_in_video = det.pts_in_video
          ∧ pc.duration_sec = max 0 (det.pts_in_video - inc.start_ts)
          ∧ (inc.start_ts ≤ det.pts_in_video →
              pc.duration_sec = det.pts_in_video - inc.start_ts))
  ∧ (∀ (s : AggState) (det : Detection) (pc : CloseEv) (pct : ℚ),
      s.pending_close = some pc → s.pending_close_time = some pct →
      s._open = none → _MERGE_GAP_SEC < det.pts_in_video - pct →
      closeEvents (_process s det).events
        = [(topic_for _TOPIC_CLOSE_BASE s.camera_id, BusEvent.closeEv pc)]
      ∧ (_process s det).events.head?
          = some (topic_for _TOPIC_CLOSE_BASE s.camera_id, BusEvent.closeEv pc)
      ∧ (_process s det).state.pending_close = none
      ∧ (_process s det).state.pending_close_time = none) := by
  constructor
  · intro s det inc hopen hpend hema hneg
    have hfp := flushPending_of_pending_none s det.pts_in_video hpend
    simp only [_process, hfp]
    simp only [updateSignals_open, hopen]
    simp only [ongoingUpdate]
    rw [if_pos ⟨hema, hneg⟩]
    exact ⟨rfl, rfl, rfl, rfl, mkScheduledCloseEv _ _, rfl, rfl, rfl, rfl,
      fun hle => max_eq_right (by linarith)⟩
  · intro s det pc pct hp ht hopen hgap
    have hfp := flushPending_expired s det.pts_in_video pc pct hp ht hgap
    simp only [_process, hfp]
    simp only [updateSignals_open, updateSignals_pending, updateSignals_pending_time,
      hopen]
    by_cases hhap : _REQUIRED_HAPPENED_CONSEC ≤
        (updateSignals
          { s with _open := none, pending_close := none, pending_close_time := none }
          det.pts_in_video det.confidence det.happened).hap_streak
    · rw [if_pos hhap]
      simp [closeEvents, isCloseEvent, openNewIncident_pending,
        openNewIncident_pending_time, updateSignals_pending,
        updateSignals_pending_time, openNewIncident, new_id_pending,
        new_id_pending_time]
    · rw [if_neg hhap]
      simp [closeEvents, isCloseEvent, updateSignals_pending, updateSignals_pending_time]

/-- Witness for C3: an OPEN state whose eighth low-EMA negative frame makes
the close pending, and a pending state expired by a later detection. -/
theorem close_pending_then_expiry_witness :
    (_process
      { initAgg "cam-1" "sess" with
        _open := some c4inc, ema := 1/10, neg_streak := 7, last_seen_pts := some 2 }
      { type := "accident", camera_id := "cam-1", ts_unix := 0, happened := false,
        confidence := 0, frame_idx := 21, pts_in_video := 21/10 }).events = []
  ∧ closeEvents (_process
      { initAgg "cam-1" "sess" with
        pending_close := some c2finalPending, pending_close_time := some 1,
        last_seen_pts := some 2 }
      { type := "accident", camera_id := "cam-1", ts_unix := 0, happened := false,
        confidence := 0, frame_idx := 22, pts_in_video := 7 }).events
    = [(topic_for _TOPIC_CLOSE_BASE "cam-1", BusEvent.closeEv c2finalPending)] := by
  constructor
  · refine (close_pending_then_expiry.1 _ _ c4inc rfl rfl ?_ ?_).1
    · norm_num [updateSignals, occlusionOk, initAgg, _ALPHA, _EXIT_THR,
        _OCCLUSION_GRACE_SEC]
    · norm_num [updateSignals, occlusionOk, initAgg, _ALPHA, _EXIT_THR,
        _OCCLUSION_GRACE_SEC, _MIN_END_NEG_FRAMES]
  · refine (close_pending_then_expiry.2 _ _ c2finalPending 1 rfl rfl rfl ?_).1
    norm_num [_MERGE_GAP_SEC]

/-! ## C10: at most one active incident per aggregator -/

/-- The C10 invariant: an open incident and a pending close never coexist,
and a pending close always carries its timestamp. -/
def AggInv (s : AggState) : Prop :=
  (s._open = none ∨ s.pending_close = none)
  ∧ (s.pending_close_time = none → s.pending_close = none)

/-- `flush` always leaves both incident slots cleared. -/
theorem flush_state_clear (s : AggState) :
    (flush s).1._open = none ∧ (flush s).1.pending_close = none ∧
    (flush s).1.pending_close_time = s.pending_close_time ∨
    (flush s).1._open = none ∧ (flush s).1.pending_close = none ∧
    (flush s).1.pending_close_time = none := by
  rcases hp : s.pending_close with _ | pc <;> rcases ho : s._open with _ | inc
  · left; exact ⟨by simp [flush, hp, ho], by simp [flush, hp, ho], by simp [flush, hp, ho]⟩
  · left; exact ⟨by simp [flush, hp, ho], by simp [flush, hp, ho], by simp [flush, hp, ho]⟩
  · right; exact ⟨by simp [flush, hp, ho], by simp [flush, hp, ho], by simp [flush, hp, ho]⟩
  · right; exact ⟨by simp [flush, hp, ho], by simp [flush, hp, ho], by simp [flush, hp, ho]⟩

/-- `_process` preserves the C10 invariant — also when the call terminates
by the merge branch's `KeyError` (the `.state` of a raising call is the
state as mutated up to the raise). -/
theorem inv_process (s : AggState) (det : Detection) (h : AggInv s) :
    AggInv (_process s det).state := by
  rcases hp : s.pending_close with _ | pc
  · have hfp := flushPending_of_pending_none s det.pts_in_video hp
    simp only [_process, hfp]
    rcases ho : s._open with _ | inc
    · simp only [updateSignals_open, updateSignals_pending, updateSignals_pending_time, ho, hp]
      by_cases hhap : _REQUIRED_HAPPENED_CONSEC ≤
          (updateSignals s det.pts_in_video det.confidence det.happened).hap_streak
      · rw [if_pos hhap]
        exact ⟨Or.inr (by simp [openNewIncident_pending, updateSignals_pending, hp]),
          fun _ => by simp [openNewIncident_pending, updateSignals_pending, hp]⟩
      · rw [if_neg hhap]
        exact ⟨Or.inr (by simp [updateSignals_pending, hp]),
          fun _ => by simp [updateSignals_pending, hp]⟩
    · simp only [updateSignals_open, ho, ongoingUpdate]
      split_ifs <;> first
        | exact ⟨Or.inl rfl, fun hc => by cases hc⟩
        | exact ⟨Or.inr (by simp [updateSignals_pending, hp]),
            fun _ => by simp [updateSignals_pending, hp]⟩
  · rcases ht : s.pending_close_time with _ | pct
    · have := h.2 ht
      rw [hp] at this
      cases this
    · by_cases hgap : _MERGE_GAP_SEC < det.pts_in_video - pct
      · have hfp := flushPending_expired s det.pts_in_video pc pct hp ht hgap
        simp only [_process, hfp]
        rcases ho : s._open with _ | inc
        · simp only [updateSignals_open, updateSignals_pending, updateSignals_pending_time, ho]
          by_cases hhap : _REQUIRED_HAPPENED_CONSEC ≤
              (updateSignals
                { s with _open := none, pending_close := none, pending_close_time := none }
                det.pts_in_video det.confidence det.happened).hap_streak
          · rw [if_pos hhap]
            exact ⟨Or.inr rfl, fun _ => rfl⟩
          · rw [if_neg hhap]
            exact ⟨Or.inr rfl, fun _ => rfl⟩
        · simp only [updateSignals_open, ho, ongoingUpdate]
          split_ifs <;> first
            | exact ⟨Or.inl rfl, fun hc => by cases hc⟩
            | exact ⟨Or.inr rfl, fun _ => rfl⟩
      · have hfp := flushPending_not_expired s det.pts_in_video pc pct hp ht hgap
        simp only [_process, hfp]
        rcases ho : s._open with _ | inc
        · simp only [updateSignals_open, updateSignals_pending, updateSignals_pending_time,
            ho, hp, ht]
          by_cases hhap : _REQUIRED_HAPPENED_CONSEC ≤
              (updateSignals s det.pts_in_video det.confidence det.happened).hap_streak
          · rw [if_pos hhap]
            rw [if_pos (by linarith : det.pts_in_video - pct ≤ _MERGE_GAP_SEC)]
            simp only [mergeBranch]
            rcases hm : _merge_reopen_into_pending pc det.pts_in_video det.pts_in_video
                det.confidence 1 det.frame_idx with pc1 | pc2
            · simp only [hm]
              refine ⟨Or.inl (by simp [updateSignals_open, ho]), fun hc => ?_⟩
              rw [updateSignals_pending_time, ht] at hc
              cases hc
            · simp only [hm]
              rcases hst : pc2.start_ts with _ | st
              · simp only [hst]
                refine ⟨Or.inl (by simp [updateSignals_open, ho]), fun hc => ?_⟩
                rw [updateSignals_pending_time, ht] at hc
                cases hc
              · simp only [hst]
                exact ⟨Or.inr rfl, fun _ => rfl⟩
          · rw [if_neg hhap]
            refine ⟨Or.inl (by simp [updateSignals_open, ho]), fun hc => ?_⟩
            rw [updateSignals_pending_time, ht] at hc
            cases hc
        · rcases h.1 with h1 | h1
          · rw [ho] at h1
            cases h1
          · rw [hp] at h1
            cases h1

/-- Aggregator states reachable from initialisation through `_process`
calls (including ones that raise; `.state` is the state at the raise) and
`flush` calls. -/
inductive AggReachable : AggState → Prop where
  | init (camera_id session_id : String) : AggReachable (initAgg camera_id session_id)
  | step (s : AggState) (det : Detection) :
      AggReachable s → AggReachable (_process s det).state
  | flushed (s : AggState) : AggReachable s → AggReachable (flush s).1

/-- C10: in every reachable aggregator state — initially and after every
`_process` or `flush` call, including `_process` calls that terminate by
the merge `KeyError` — at most one of `_open` and `_pending_close` is set;
consequently a single `flush` call publishes at most one close event. -/
theorem aggregator_single_incident (s : AggState) (h : AggReachable s) :
    (s._open = none ∨ s.pending_close = none)
  ∧ (closeEvents (flush s).2).length ≤ 1 := by
  have hinv : AggInv s := by
    induction h with
    | init c sid => exact ⟨Or.inl rfl, fun _ => rfl⟩
    | step t det ht ih => exact inv_process t det ih
    | flushed t ht ih =>
      rcases flush_state_clear t with ⟨h1, h2, h3⟩ | ⟨h1, h2, h3⟩
      · exact ⟨Or.inl h1, fun _ => h2⟩
      · exact ⟨Or.inl h1, fun _ => h2⟩
  refine ⟨hinv.1, ?_⟩
  rcases hp : s.pending_close with _ | pc <;> rcases ho : s._open with _ | inc
  · simp [flush, hp, ho, closeEvents]
  · simp [flush, hp, ho, closeEvents, isCloseEvent]
  · simp [flush, hp, ho, closeEvents, isCloseEvent]
  · rcases hinv.1 with h1 | h1
    · rw [ho] at h1
      cases h1
    · rw [hp] at h1
      cases h1

/-- Witness for C10 at the initial state. -/
theorem aggregator_single_incident_witness :
    ((initAgg "cam-1" "sess")._open = none ∨
      (initAgg "cam-1" "sess").pending_close = none)
  ∧ (closeEvents (flush (initAgg "cam-1" "sess")).2).length ≤ 1 :=
  aggregator_single_incident _ (AggReachable.init "cam-1" "sess")

end TrafficAI
